import Mathlib

/-
  Verification development for TradingMonitorIBKR.

  Shallow embedding of the monitoring logic in src/main.py and
  src/portfolio_monitor.py.  Python dictionaries are modelled as
  insertion-ordered association lists (Python 3.7+ dict semantics:
  updating an existing key keeps its position, a new key is appended).
  Python floats that may be NaN are modelled by the inductive type
  FVal; every comparison of a possibly-NaN float follows IEEE
  semantics (every comparison with NaN is false).
  Wall-clock datetimes are modelled as a record of absolute seconds
  plus hour/minute fields.
-/

namespace TradingMonitor

/-- Lookup in an association list keyed by strings (Python `d[k]` / `d.get(k)`). -/
def alookup {α : Type} : List (String × α) → String → Option α
  | [], _ => none
  | (k, v) :: l, s => if k = s then some v else alookup l s

/-- Update/insert in an association list (Python `d[k] = v`): an existing key
is updated in place, a new key is appended at the end. -/
def aset {α : Type} : List (String × α) → String → α → List (String × α)
  | [], s, v => [(s, v)]
  | (k, w) :: l, s, v => if k = s then (k, v) :: l else (k, w) :: aset l s v

/-- A Python float value that may be NaN. -/
inductive FVal where
  | nan : FVal
  | num : ℚ → FVal
deriving DecidableEq

/-- `math.isnan(x)`. -/
def fvalIsNan : FVal → Bool
  | FVal.nan => true
  | FVal.num _ => false

/-- Python `x == 0` for a possibly-NaN float (false on NaN). -/
def fvalIsZero : FVal → Bool
  | FVal.nan => false
  | FVal.num q => decide (q = 0)

/-- Python `x > 0` for a possibly-NaN float (false on NaN). -/
def fvalIsPos : FVal → Bool
  | FVal.nan => false
  | FVal.num q => decide (0 < q)

/-- Numeric content of a non-NaN float; also models `0 if math.isnan(x) else x`. -/
def fvalToQ : FVal → ℚ
  | FVal.nan => 0
  | FVal.num q => q

/- ===================== src/main.py : notifyShortableShares ===================== -/

/-- A pending ticker as consumed by notifyShortableShares: the contract (just
its symbol; `None` models `ticker.contract is None`) and the shortable-share
sample. -/
structure Ticker where
  contract : Option String
  shortableShares : FVal
deriving DecidableEq

/-- The two module-level dictionaries of src/main.py used by
notifyShortableShares: `shortableSharesDict` (symbol -> last decided value)
and `nanCounterDict` (symbol -> consecutive-NaN counter). -/
structure ShortState where
  shortableSharesDict : List (String × ℚ)
  nanCounterDict : List (String × Nat)
deriving DecidableEq

/-- src/main.py line 161: `0 if shortableShares > 2_147_483_000 else shortableShares`. -/
def normalizeShares (q : ℚ) : ℚ := if q > 2147483000 then 0 else q

/-- src/main.py lines 163-174, the part of the loop body after the isnan
branch.  `nanDict1` is the NaN-counter dictionary after lines 158-159 and
`v1` the (possibly normalized) sample after line 161.  The bare indexing
`nanCounterDict[symbol]` at line 163 raises KeyError when the symbol is
absent, modelled by `Except.error` carrying the state at that point. -/
def processRest (st : ShortState) (symbol : String) (nanDict1 : List (String × Nat))
    (v1 : FVal) : Except ShortState (ShortState × Option (String × ℚ)) :=
  match alookup nanDict1 symbol with
  | none => Except.error { st with nanCounterDict := nanDict1 }
  | some c =>
      let nanDict2 := if c > 10 then aset nanDict1 symbol 0 else nanDict1
      let v2 := if c > 10 then FVal.num 0 else v1
      let prev := (alookup st.shortableSharesDict symbol).getD 0
      let fire := (decide (prev ≠ 0) && fvalIsZero v2) || (decide (prev ≤ 0) && fvalIsPos v2)
      let sent : Option (String × ℚ) := if fire then some (symbol, fvalToQ v2) else none
      let newShares :=
        if fvalIsNan v2 then st.shortableSharesDict
        else aset st.shortableSharesDict symbol (fvalToQ v2)
      Except.ok (⟨newShares, nanDict2⟩, sent)

/-- One iteration of the loop of notifyShortableShares (src/main.py lines
152-174) for a ticker whose contract is present.  Returns the updated state
and the notification sent (symbol and value), or an error when the KeyError
of line 163 fires. -/
def processTicker (st : ShortState) (symbol : String) (shortableShares : FVal) :
    Except ShortState (ShortState × Option (String × ℚ)) :=
  match shortableShares with
  | FVal.nan =>
      processRest st symbol
        (aset st.nanCounterDict symbol ((alookup st.nanCounterDict symbol).getD 0 + 1))
        FVal.nan
  | FVal.num q => processRest st symbol st.nanCounterDict (FVal.num (normalizeShares q))

/-- src/main.py lines 146-179.  Processes the batch in order; the generic
`except` handler at line 178 catches any exception raised mid-loop, so the
remaining tickers are skipped and the state mutated so far is kept.
Returns the final state and the list of notifications sent. -/
def notifyShortableShares (st : ShortState) : List Ticker → ShortState × List (String × ℚ)
  | [] => (st, [])
  | t :: ts =>
      match t.contract with
      | none => notifyShortableShares st ts
      | some symbol =>
          match processTicker st symbol t.shortableShares with
          | Except.error stE => (stE, [])
          | Except.ok (st1, sent) =>
              let rest := notifyShortableShares st1 ts
              (rest.1, sent.toList ++ rest.2)

/-- src/main.py lines 195-200: every watch-list symbol starts with decided
value -1 in shortableSharesDict (and no entry in nanCounterDict). -/
def initshortableSharesDict (symbols : List String) : List (String × ℚ) :=
  symbols.map (fun s => (s, (-1 : ℚ)))

/-- A batch consisting of `n` NaN samples for symbol `s`. -/
def nanTicker (s : String) : Ticker := ⟨some s, FVal.nan⟩

/- ===================== src/portfolio_monitor.py : data model ===================== -/

/-- src.core.custom_types.Instrument as used by this repository: symbol,
exchange, instrument kind and optional underlying symbol (empty if none). -/
structure Instrument where
  symbol : String
  exchange : String
  instrumentType : String
  underlyingSymbol : String
deriving DecidableEq

/-- A portfolio position: its symbol and its instrument. -/
structure Position where
  symbol : String
  instrument : Instrument
deriving DecidableEq

/-- The positions snapshot returned by `RequestClient.fetchPositions()`:
an insertion-ordered mapping symbol -> position. -/
structure Portfolio where
  positions : List (String × Position)
deriving DecidableEq

/-- Best market data for an instrument as returned by
`DataManager.getBestMarketData`: mark/last/close prices (possibly NaN) and a
pre-rendered observation timestamp. -/
structure MarketData where
  markPrice : FVal
  last : FVal
  closePrice : FVal
  timestampStr : String
deriving DecidableEq

/-- One entry of `portfolioPrices` (src/portfolio_monitor.py lines 104-109). -/
structure PriceRow where
  markPrice : ℚ
  priceType : String
  time : String
  close : ℚ
deriving DecidableEq

/-- A wall-clock datetime: absolute seconds plus its hour/minute fields. -/
structure Clock where
  seconds : Int
  hour : Nat
  minute : Nat
deriving DecidableEq

/-- The mutable state of a PortfolioTracker.  Ticker objects themselves are
opaque handles from the data provider, so tickerDictionary only records which
symbols hold one. -/
structure TrackerState where
  tickerDictionary : List (String × Unit)
  instrumentDictionary : List (String × Instrument)
  portfolioPrices : List (String × PriceRow)
  lastPortfolioTime : Clock
deriving DecidableEq

/-- The broker handle: `requestClient = none` models `ibkr.RequestClient is
None`; otherwise it carries the positions snapshot that
`fetchPositions()` returns. -/
structure IBKRModel where
  requestClient : Option Portfolio
deriving DecidableEq

/-- The initial row written for a freshly tracked symbol
(src/portfolio_monitor.py lines 158, 162, 212). -/
def priceZeroRow : PriceRow := ⟨0, "Mark", "", 0⟩

/-- PortfolioTracker.getUnderlyings (src/portfolio_monitor.py lines 170-176):
the deduplicated non-empty underlying symbols of the given positions.  The
source collects them in a Python set whose iteration order is unspecified;
here first-occurrence order is used, and only membership matters downstream. -/
def getUnderlyings (positions : List Position) : List String :=
  ((positions.map (fun p => p.instrument.underlyingSymbol)).filter
    (fun u => u ≠ "")).eraseDups

/-- The per-instrument row selection inside PortfolioTracker.updateMarkPrices
(src/portfolio_monitor.py lines 88-109): mark price with type "Mark" when the
instrument kind is exactly "OPT", last-trade price with type "Last" otherwise,
and the (0, "N/A") fallback when no data provider has data; NaN prices are
replaced by 0 (lines 101-102). -/
def bestRow (instrument : Instrument) (md : Option MarketData) : PriceRow :=
  match md with
  | none => { markPrice := 0, priceType := "N/A", time := "N/A", close := 0 }
  | some m =>
      if instrument.instrumentType = "OPT" then
        { markPrice := fvalToQ m.markPrice, priceType := "Mark",
          time := m.timestampStr, close := fvalToQ m.closePrice }
      else
        { markPrice := fvalToQ m.last, priceType := "Last",
          time := m.timestampStr, close := fvalToQ m.closePrice }

/-- PortfolioTracker.updateMarkPrices (src/portfolio_monitor.py lines 85-111):
iterates over instrumentDictionary and rewrites portfolioPrices.  The `close`
flag is accepted but never read by the body. -/
def updateMarkPrices (st : TrackerState) (rtData : Instrument → Option MarketData)
    (close : Bool) : TrackerState :=
  { st with portfolioPrices :=
      (st.instrumentDictionary.foldl
        (fun pp kv => aset pp kv.2.symbol (bestRow kv.2 (rtData kv.2)))
        st.portfolioPrices) }

/-- A spreadsheet cell: the rows mix strings and numbers. -/
inductive Cell where
  | str : String → Cell
  | rat : ℚ → Cell
deriving DecidableEq

/-- PortfolioTracker.convertDictToList (src/portfolio_monitor.py lines 115-123). -/
def convertDictToList (st : TrackerState) : List (List Cell) :=
  [Cell.str "Symbol", Cell.str "Mark Price", Cell.str "Price Type",
   Cell.str "Time", Cell.str "Close (Mark)"] ::
  st.portfolioPrices.map (fun kv =>
    [Cell.str kv.1, Cell.rat kv.2.markPrice, Cell.str kv.2.priceType,
     Cell.str kv.2.time, Cell.rat kv.2.close])

/-- PortfolioTracker.update (src/portfolio_monitor.py lines 224-236): refresh
mark prices, then return the tabular snapshot together with the new state. -/
def update (st : TrackerState) (rtData : Instrument → Option MarketData)
    (close : Bool) : TrackerState × List (List Cell) :=
  let st1 := updateMarkPrices st rtData close
  (st1, convertDictToList st1)

/-- PortfolioTracker.addToInstrumentDictionary (src/portfolio_monitor.py lines
126-128): plain dictionary assignment per instrument, so a repeated symbol is
overwritten by the later instrument. -/
def addToInstrumentDictionary (st : TrackerState) (listOfInstruments : List Instrument) :
    TrackerState :=
  { st with instrumentDictionary :=
      listOfInstruments.foldl (fun d i => aset d i.symbol i) st.instrumentDictionary }

/-- PortfolioTracker.create (src/portfolio_monitor.py lines 132-168): fetch
positions; on an empty portfolio (or inaccessible broker) do nothing; else add
each position and then each derived underlying to the three dictionaries.
The data-provider registration and the sleep are external effects. -/
def create (st : TrackerState) (ibkr : IBKRModel) : TrackerState :=
  match ibkr.requestClient with
  | none => st
  | some positions =>
      if positions.positions.isEmpty then st
      else
        let st1 := positions.positions.foldl
          (fun s kv =>
            { s with
              instrumentDictionary := aset s.instrumentDictionary kv.2.symbol kv.2.instrument,
              tickerDictionary := aset s.tickerDictionary kv.2.symbol (),
              portfolioPrices := aset s.portfolioPrices kv.2.symbol priceZeroRow }) st
        (getUnderlyings (positions.positions.map (fun kv => kv.2))).foldl
          (fun s u =>
            { s with
              tickerDictionary := aset s.tickerDictionary u (),
              portfolioPrices := aset s.portfolioPrices u priceZeroRow,
              instrumentDictionary :=
                aset s.instrumentDictionary u ⟨u, "SMART", "", ""⟩ }) st1

/-- The loop body of refreshTickerDictionary (src/portfolio_monitor.py lines
208-212): a symbol not yet in tickerDictionary gets a ticker and a zero price
row; an already-tracked symbol is left alone. -/
def addSymbolStep (s : TrackerState) (symbol : String) : TrackerState :=
  if (alookup s.tickerDictionary symbol).isSome then s
  else
    { s with
      tickerDictionary := aset s.tickerDictionary symbol (),
      portfolioPrices := aset s.portfolioPrices symbol priceZeroRow }

/-- PortfolioTracker.refreshTickerDictionary (src/portfolio_monitor.py lines
179-221): broker inaccessible -> no-op; empty tickerDictionary -> delegate to
create (which ignores instrumentList); empty portfolio -> no-op; otherwise add
every portfolio symbol, derived underlying and instrumentList symbol not yet
tracked.  The removal block at lines 216-221 is commented out in the source,
so nothing is ever removed. -/
def refreshTickerDictionary (st : TrackerState) (ibkr : IBKRModel)
    (instrumentList : List Instrument) : TrackerState :=
  match ibkr.requestClient with
  | none => st
  | some portfolio =>
      if st.tickerDictionary.isEmpty then create st ibkr
      else if portfolio.positions.isEmpty then st
      else
        let currentSymbols :=
          portfolio.positions.map (fun kv => kv.1)
            ++ getUnderlyings (portfolio.positions.map (fun kv => kv.2))
            ++ instrumentList.map (fun i => i.symbol)
        currentSymbols.foldl addSymbolStep st

/- ===================== src/main.py : event relay ===================== -/

/-- The execution carried by a fill. -/
structure Execution where
  side : String
  shares : ℚ
  price : ℚ
deriving DecidableEq

/-- A fill: its UTC time (seconds), execution and commission report data. -/
structure FillModel where
  time : Int
  execution : Execution
  commission : ℚ
deriving DecidableEq

/-- A trade as consumed by the event handlers. -/
structure TradeModel where
  localSymbol : String
  fills : List FillModel
deriving DecidableEq

/-- An outbound effect of an event handler. -/
inductive Action where
  | log : String → Action
  | telegramSend : String → Action
  | email : List String → String → String → Action
deriving DecidableEq

/-- buildTradeMessage (src/main.py lines 110-113).  `trade.fills[-1]` raises
IndexError on an empty list, modelled by `none`. -/
def buildTradeMessage (trade : TradeModel) (commission : ℚ) : Option String :=
  match trade.fills.getLast? with
  | none => none
  | some fill =>
      some (fill.execution.side ++ " " ++ toString fill.execution.shares
        ++ " shares on " ++ trade.localSymbol ++ " at "
        ++ toString fill.execution.price ++ ". Commission: " ++ toString commission)

/-- onExecDetails (src/main.py lines 117-123): builds the message and relays
it to telegram and the log unconditionally — there is no freshness check. -/
def onExecDetails (trade : TradeModel) (fill : FillModel) : Option (List Action) :=
  match buildTradeMessage trade fill.commission with
  | none => none
  | some msg => some [Action.telegramSend msg, Action.log msg]

/-- onCommission (src/main.py lines 130-143): an event whose fill is strictly
older than 2 minutes relative to `now` is logged and not relayed; otherwise it
is relayed to telegram and email and logged.  `none` models the IndexError of
buildTradeMessage on a trade without fills. -/
def onCommission (now : Int) (trade : TradeModel) (fill : FillModel)
    (reportCommission : ℚ) : Option (List Action) :=
  match buildTradeMessage trade reportCommission with
  | none => none
  | some msg =>
      if now - fill.time > 2 * 60 then
        some [Action.log "Se ha recibido el siguiente evento de hace 2 minutos o mas. No se notificara por mail ni telegram:",
              Action.log msg]
      else
        some [Action.telegramSend msg,
              Action.email ["m.garcia@newfrontier.es", "mpolavieja@gmail.com"]
                "Ejecucion New Frontier" msg,
              Action.log msg]

/-- True when the handler result contains a telegram send. -/
def relayedToTelegram (acts : Option (List Action)) : Bool :=
  match acts with
  | none => false
  | some l => l.any (fun a => match a with | Action.telegramSend _ => true | _ => false)

/-- True when the handler result contains an email send. -/
def relayedToEmail (acts : Option (List Action)) : Bool :=
  match acts with
  | none => false
  | some l => l.any (fun a => match a with | Action.email _ _ _ => true | _ => false)

/-- True when the handler result contains a log line. -/
def hasLog (acts : Option (List Action)) : Bool :=
  match acts with
  | none => false
  | some l => l.any (fun a => match a with | Action.log _ => true | _ => false)

/- ===================== src/main.py : scheduler ===================== -/

/-- trackPortfolio (src/main.py lines 203-221): when less than updateSeconds
have elapsed since lastPortfolioTime, return immediately; otherwise refresh
the ticker dictionary, update prices (requesting closing prices inside the
22:00-22:02 end-of-day window), write the snapshot to the spreadsheet (the
returned table list) and record the run time. -/
def trackPortfolio (now : Clock) (st : TrackerState) (ibkr : IBKRModel)
    (rtData : Instrument → Option MarketData) (updateSeconds : Int)
    (manualTickers : List Instrument) : TrackerState × List (List (List Cell)) :=
  if now.seconds - st.lastPortfolioTime.seconds < updateSeconds then (st, [])
  else
    let st1 := refreshTickerDictionary st ibkr manualTickers
    let closeFlag := now.hour == 22 && now.minute ≤ 2
    let r := update st1 rtData closeFlag
    ({ r.1 with lastPortfolioTime := now }, [r.2])

/-- checkConnection (src/main.py lines 227-257): the scheduled callback.  It
runs trackPortfolio (with the default updateSeconds = 20) and then always
re-arms itself 5 seconds later; the liveness counter it bumps is
diagnostic-only.  Returns the tracker outcome and the next scheduled time. -/
def checkConnection (now : Clock) (st : TrackerState) (ibkr : IBKRModel)
    (rtData : Instrument → Option MarketData) (manualTickers : List Instrument) :
    (TrackerState × List (List (List Cell))) × Int :=
  (trackPortfolio now st ibkr rtData 20 manualTickers, now.seconds + 5)

/- ===================== concrete instances used in witnesses ===================== -/

def clock0 : Clock := ⟨0, 0, 0⟩

/-- A watch-list state right after initshortableSharesDict(["A"]): decided
value -1 for "A", no NaN-counter entry. -/
def stShortA : ShortState := ⟨initshortableSharesDict ["A"], []⟩

/-- A state that has already seen symbol "B". -/
def stShortB : ShortState := ⟨[("B", 5)], [("B", 2)]⟩

def instrXYZ : Instrument := ⟨"XYZ", "NYSE", "STK", ""⟩

def portfolioXYZ : Portfolio := ⟨[("XYZ", ⟨"XYZ", instrXYZ⟩)]⟩

def ibkrXYZ : IBKRModel := ⟨some portfolioXYZ⟩

def instrMAN : Instrument := ⟨"MAN", "SMART", "", ""⟩

def emptyTracker : TrackerState := ⟨[], [], [], clock0⟩

def trackerOLD : TrackerState := ⟨[("OLD", ())], [], [], clock0⟩

def instrA1 : Instrument := ⟨"A", "NYSE", "STK", ""⟩

def instrA2 : Instrument := ⟨"A", "NASDAQ", "STK", ""⟩

def futInstr : Instrument := ⟨"FUT1", "GLOBEX", "FUT", "ES"⟩

def optInstr : Instrument := ⟨"OPT1", "SMART", "OPT", "ES"⟩

def mdSample : MarketData := ⟨FVal.num 5, FVal.num 7, FVal.num 6, "2026-01-01 10:00:00"⟩

def rtSample : Instrument → Option MarketData :=
  fun i => if i.symbol = "FUT1" ∨ i.symbol = "OPT1" then some mdSample else none

def trackerFut : TrackerState := ⟨[("FUT1", ())], [("FUT1", futInstr)], [], clock0⟩

def trackerOpt : TrackerState := ⟨[("OPT1", ())], [("OPT1", optInstr)], [], clock0⟩

def exec0 : Execution := ⟨"BOT", 10, 5⟩

def fill0 : FillModel := ⟨0, exec0, 2⟩

def trade0 : TradeModel := ⟨"ESZ5", [fill0]⟩

def trackerIdle : TrackerState := ⟨[], [], [], ⟨100, 10, 0⟩⟩

def clock110 : Clock := ⟨110, 10, 5⟩

/- ===================== association-list lemmas ===================== -/

theorem alookup_aset_self {α : Type} (l : List (String × α)) (s : String) (v : α) :
    alookup (aset l s v) s = some v := by
  induction l with
  | nil => simp [aset, alookup]
  | cons kw l ih =>
      obtain ⟨k, w⟩ := kw
      by_cases h : k = s
      · simp [aset, alookup, h]
      · simp [aset, alookup, h, ih]

theorem alookup_aset_ne {α : Type} (l : List (String × α)) (s t : String) (v : α)
    (h : t ≠ s) : alookup (aset l s v) t = alookup l t := by
  induction l with
  | nil => simp [aset, alookup, Ne.symm h]
  | cons kw l ih =>
      obtain ⟨k, w⟩ := kw
      by_cases hk : k = s
      · subst hk
        simp [aset, alookup, Ne.symm h]
      · simp [aset, alookup, hk, ih]

theorem aset_aset {α : Type} (l : List (String × α)) (s : String) (a b : α) :
    aset (aset l s a) s b = aset l s b := by
  induction l with
  | nil => simp [aset]
  | cons kw l ih =>
      obtain ⟨k, w⟩ := kw
      by_cases h : k = s
      · simp [aset, h]
      · simp [aset, h, ih]

theorem aset_of_alookup_eq {α : Type} (l : List (String × α)) (s : String) (v : α)
    (h : alookup l s = some v) : aset l s v = l := by
  induction l with
  | nil => simp [alookup] at h
  | cons kw l ih =>
      obtain ⟨k, w⟩ := kw
      by_cases hk : k = s
      · simp [alookup, hk] at h
        simp [aset, hk, h]
      · simp [alookup, hk] at h
        simp [aset, hk, ih h]

theorem alookup_aset_isSome {α : Type} (l : List (String × α)) (s t : String) (v : α)
    (h : (alookup l t).isSome) : (alookup (aset l s v) t).isSome := by
  by_cases hts : t = s
  · subst hts
    simp [alookup_aset_self]
  · rwa [alookup_aset_ne l s t v hts]

/- ===================== C10 ===================== -/

/-- C10: PortfolioTracker.update with close = True returns exactly the same
table and state as with close = False; the flag is threaded to
updateMarkPrices but never read, so the end-of-day closing-price request has
no effect. -/
theorem update_close_flag_ignored :
    ∀ (st : TrackerState) (rtData : Instrument → Option MarketData),
      update st rtData true = update st rtData false :=
  fun _ _ => rfl

/- ===================== C8 ===================== -/

/-- C8: a valid shortable-share sample of 3,000,000,000 (above the
2,147,483,000 overflow sentinel) is normalized to 0 before the transition
comparison, so notifyShortableShares processes it exactly as it would a
sample of 0 (an "unavailable" reading), in every state. -/
theorem shortable_overflow_normalized :
    ∀ (st : ShortState) (s : String),
      normalizeShares 3000000000 = 0 ∧
      processTicker st s (FVal.num 3000000000) = processTicker st s (FVal.num 0) := by
  intro st s
  have h : normalizeShares 3000000000 = 0 := by
    unfold normalizeShares
    norm_num
  have h0 : normalizeShares 0 = 0 := by
    unfold normalizeShares
    norm_num
  exact ⟨h, by simp [processTicker, h, h0]⟩

/- ===================== C9 ===================== -/

/-- C9: for a symbol with no entry in nanCounterDict, a valid (non-NaN) first
sample makes notifyShortableShares raise a KeyError at the bare lookup of
line 163, which the generic handler catches: no notification is sent, no
decided value is stored (the whole state is unchanged) and every remaining
ticker of the batch is skipped. -/
theorem shortable_first_valid_keyerror (st : ShortState) (s : String) (q : ℚ)
    (ts : List Ticker) (h : alookup st.nanCounterDict s = none) :
    processTicker st s (FVal.num q) = Except.error st ∧
    notifyShortableShares st (⟨some s, FVal.num q⟩ :: ts) = (st, []) := by
  have e : processTicker st s (FVal.num q) = Except.error st := by
    simp [processTicker, processRest, h]
  exact ⟨e, by simp [notifyShortableShares, e]⟩

/-- Witness for C9: a concrete state knowing only "B", a first valid sample
for "A", and a pending ticker for "B" that is skipped. -/
theorem shortable_first_valid_keyerror_witness :
    alookup stShortB.nanCounterDict "A" = none ∧
    notifyShortableShares stShortB
      (⟨some "A", FVal.num 100⟩ :: [⟨some "B", FVal.num 0⟩]) = (stShortB, []) :=
  ⟨rfl, (shortable_first_valid_keyerror stShortB "A" 100 [⟨some "B", FVal.num 0⟩] rfl).2⟩

/- ===================== C1 ===================== -/

/-- C1 (failing input): symbol "A" initialized by the watch-list to decided
value -1 (≤ 0) and with no NaN-counter entry receives its first valid sample
100 (> 0).  The spec requires an Emerged notification; the code raises
KeyError at `nanCounterDict[symbol]` and the batch handler sends nothing and
stores nothing. -/
theorem shortable_first_valid_sample_bug :
    (alookup stShortA.shortableSharesDict "A").getD 0 ≤ 0 ∧
    (0 : ℚ) < 100 ∧
    processTicker stShortA "A" (FVal.num 100) = Except.error stShortA ∧
    notifyShortableShares stShortA [⟨some "A", FVal.num 100⟩] = (stShortA, []) := by
  refine ⟨by norm_num [stShortA, initshortableSharesDict, alookup], by norm_num, ?_, ?_⟩
  · exact (shortable_first_valid_keyerror stShortA "A" 100 [] rfl).1
  · exact (shortable_first_valid_keyerror stShortA "A" 100 [] rfl).2

/- ===================== C4 ===================== -/

/-- C4 (counterexample): adding "A"/NYSE then "A"/NASDAQ leaves the
NASDAQ instrument in the dictionary — the second call is not a no-op and the
first-seen exchange is not retained. -/
theorem addToInstrumentDictionary_not_first_wins :
    alookup (addToInstrumentDictionary (addToInstrumentDictionary emptyTracker [instrA1])
        [instrA2]).instrumentDictionary "A" = some instrA2 ∧
    instrA1.symbol = instrA2.symbol ∧
    instrA1.exchange = "NYSE" ∧ instrA2.exchange = "NASDAQ" := by
  refine ⟨rfl, rfl, rfl, rfl⟩

/-- C4 (amended): addToInstrumentDictionary overwrites: called twice with the
same symbol, the dictionary retains the second instrument (last-seen metadata
wins), whatever its exchange. -/
theorem addToInstrumentDictionary_last_wins (st : TrackerState) (i1 i2 : Instrument)
    (h : i1.symbol = i2.symbol) :
    alookup (addToInstrumentDictionary (addToInstrumentDictionary st [i1])
        [i2]).instrumentDictionary i1.symbol = some i2 := by
  simp only [addToInstrumentDictionary, List.foldl_cons, List.foldl_nil]
  rw [h, aset_aset, alookup_aset_self]

/-- Witness for C4's amended theorem at the concrete NYSE/NASDAQ pair. -/
theorem addToInstrumentDictionary_last_wins_witness :
    instrA1.symbol = instrA2.symbol ∧
    alookup (addToInstrumentDictionary (addToInstrumentDictionary emptyTracker [instrA1])
        [instrA2]).instrumentDictionary instrA1.symbol = some instrA2 :=
  ⟨rfl, addToInstrumentDictionary_last_wins emptyTracker instrA1 instrA2 rfl⟩

/- ===================== C6 ===================== -/

/-- C6: a trackPortfolio invocation less than updateSeconds after the last
successful run is a complete no-op (same tracker state, including
lastPortfolioTime, and no spreadsheet write), and the surrounding
checkConnection callback still re-arms the next run 5 seconds later. -/
theorem trackPortfolio_noop_within_window (now : Clock) (st : TrackerState)
    (ibkr : IBKRModel) (rtData : Instrument → Option MarketData) (us : Int)
    (mt : List Instrument)
    (h : now.seconds - st.lastPortfolioTime.seconds < us) :
    trackPortfolio now st ibkr rtData us mt = (st, []) ∧
    (now.seconds - st.lastPortfolioTime.seconds < 20 →
      checkConnection now st ibkr rtData mt = ((st, []), now.seconds + 5)) := by
  constructor
  · unfold trackPortfolio
    rw [if_pos h]
  · intro h20
    unfold checkConnection trackPortfolio
    rw [if_pos h20]

/-- Witness for C6: 10 seconds after a run, the call is a no-op and the
callback still schedules now + 5. -/
theorem trackPortfolio_noop_within_window_witness :
    clock110.seconds - trackerIdle.lastPortfolioTime.seconds < 20 ∧
    trackPortfolio clock110 trackerIdle ⟨none⟩ (fun _ => none) 20 [] = (trackerIdle, []) ∧
    checkConnection clock110 trackerIdle ⟨none⟩ (fun _ => none) [] =
      ((trackerIdle, []), clock110.seconds + 5) := by
  have h : clock110.seconds - trackerIdle.lastPortfolioTime.seconds < 20 := by decide
  have r := trackPortfolio_noop_within_window clock110 trackerIdle ⟨none⟩ (fun _ => none) 20 [] h
  exact ⟨h, r.1, r.2 h⟩

/- ===================== C5 ===================== -/

/-- C5 (counterexample): an execution event whose fill is 5 minutes old is
still relayed to telegram by onExecDetails — the freshness filter exists only
in onCommission, so the claim fails for execution events. -/
theorem execDetails_relays_stale :
    (300 : Int) - fill0.time > 2 * 60 ∧
    relayedToTelegram (onExecDetails trade0 fill0) = true := by
  constructor
  · decide
  · rfl

/-- C5 (amended): the 2-minute freshness filter applies to commission events
only: onCommission logs but does not relay events strictly older than 2
minutes, and relays younger ones (e.g. 30 seconds old) to telegram and email;
onExecDetails relays to telegram with no freshness check. -/
theorem commission_freshness_filter (now : Int) (trade : TradeModel)
    (fill : FillModel) (rc : ℚ) (h : trade.fills ≠ []) :
    (now - fill.time > 2 * 60 →
      relayedToTelegram (onCommission now trade fill rc) = false ∧
      relayedToEmail (onCommission now trade fill rc) = false ∧
      hasLog (onCommission now trade fill rc) = true) ∧
    (¬ now - fill.time > 2 * 60 →
      relayedToTelegram (onCommission now trade fill rc) = true ∧
      relayedToEmail (onCommission now trade fill rc) = true ∧
      hasLog (onCommission now trade fill rc) = true) ∧
    relayedToTelegram (onExecDetails trade fill) = true := by
  have hlast : trade.fills.getLast?.isSome := by
    cases hfl : trade.fills with
    | nil => exact absurd hfl h
    | cons a l =>
        rw [List.getLast?_isSome]
        simp
  obtain ⟨fl, hfl⟩ := Option.isSome_iff_exists.mp hlast
  refine ⟨?_, ?_, ?_⟩
  · intro hold
    have h120 : (120 : Int) < now - fill.time := by omega
    simp [onCommission, buildTradeMessage, hfl, relayedToTelegram,
      relayedToEmail, hasLog, h120]
  · intro hyoung
    have h120 : ¬ (120 : Int) < now - fill.time := by omega
    simp [onCommission, buildTradeMessage, hfl, relayedToTelegram,
      relayedToEmail, hasLog, h120]
  · simp [onExecDetails, buildTradeMessage, hfl, relayedToTelegram]

/-- Witness for C5's amended theorem: a concrete trade, checked 5 minutes and
30 seconds after its fill. -/
theorem commission_freshness_filter_witness :
    trade0.fills ≠ [] ∧
    relayedToTelegram (onCommission 300 trade0 fill0 2) = false ∧
    relayedToTelegram (onCommission 30 trade0 fill0 2) = true ∧
    relayedToEmail (onCommission 30 trade0 fill0 2) = true ∧
    relayedToTelegram (onExecDetails trade0 fill0) = true := by
  have h : trade0.fills ≠ [] := by decide
  have r300 := commission_freshness_filter 300 trade0 fill0 2 h
  have r30 := commission_freshness_filter 30 trade0 fill0 2 h
  exact ⟨h, (r300.1 (by decide)).1, (r30.2.1 (by decide)).1, (r30.2.1 (by decide)).2.1,
    r300.2.2⟩

/- ===================== C2 ===================== -/

theorem processTicker_nan_first (sh : List (String × ℚ)) (d : List (String × Nat))
    (s : String) (h : alookup d s = none) :
    processTicker ⟨sh, d⟩ s FVal.nan = Except.ok (⟨sh, aset d s 1⟩, none) := by
  simp [processTicker, processRest, h, alookup_aset_self, fvalIsNan, fvalIsZero, fvalIsPos]

theorem processTicker_nan_low (sh : List (String × ℚ)) (d : List (String × Nat))
    (s : String) (k : ℕ) (hk : alookup d s = some k) (h10 : k + 1 ≤ 10) :
    processTicker ⟨sh, d⟩ s FVal.nan = Except.ok (⟨sh, aset d s (k + 1)⟩, none) := by
  have hball : ¬ 10 < k + 1 := by omega
  simp [processTicker, processRest, hk, alookup_aset_self, hball, fvalIsNan,
    fvalIsZero, fvalIsPos]

theorem processTicker_nan_force (sh : List (String × ℚ)) (d : List (String × Nat))
    (s : String) (hk : alookup d s = some 10) (hsh : alookup sh s = none) :
    processTicker ⟨sh, d⟩ s FVal.nan = Except.ok (⟨aset sh s 0, aset d s 0⟩, none) := by
  simp [processTicker, processRest, hk, alookup_aset_self, hsh, fvalIsNan,
    fvalIsZero, fvalIsPos, fvalToQ, aset_aset]

/-- Unfolding one silent NaN step of the batch loop. -/
theorem notify_nan_cons (st st1 : ShortState) (s : String) (ts : List Ticker)
    (h : processTicker st s FVal.nan = Except.ok (st1, none)) :
    notifyShortableShares st (nanTicker s :: ts) = notifyShortableShares st1 ts := by
  simp only [notifyShortableShares, nanTicker]
  rw [h]
  simp

/-- Processing n NaN samples while the counter stays at or below the
threshold: the counter accumulates, nothing else changes, nothing is sent. -/
theorem notify_nan_run (s : String) : ∀ (n k : ℕ) (sh : List (String × ℚ))
    (d : List (String × Nat)),
    alookup d s = some k → k + n ≤ 10 →
    notifyShortableShares ⟨sh, d⟩ (List.replicate n (nanTicker s)) =
      (⟨sh, aset d s (k + n)⟩, []) := by
  intro n
  induction n with
  | zero =>
      intro k sh d hk _
      rw [List.replicate_zero, Nat.add_zero, aset_of_alookup_eq d s k hk]
      rfl
  | succ n ih =>
      intro k sh d hk h10
      rw [List.replicate_succ]
      rw [notify_nan_cons _ _ s _ (processTicker_nan_low sh d s k hk (by omega))]
      rw [ih (k + 1) sh (aset d s (k + 1)) (alookup_aset_self d s (k + 1)) (by omega)]
      rw [aset_aset]
      have e : k + 1 + n = k + (n + 1) := by omega
      rw [e]

/-- Processing the NaN samples that carry the counter past the threshold: the
step at which the counter reaches 11 forces the decided value to 0 and resets
the counter, still without sending anything (the previous value is the
default 0). -/
theorem notify_nan_run_force (s : String) : ∀ (n k : ℕ) (sh : List (String × ℚ))
    (d : List (String × Nat)),
    alookup d s = some k → alookup sh s = none → k ≤ 10 → k + n = 11 →
    notifyShortableShares ⟨sh, d⟩ (List.replicate n (nanTicker s)) =
      (⟨aset sh s 0, aset d s 0⟩, []) := by
  intro n
  induction n with
  | zero =>
      intro k sh d _ _ hk10 hk11
      omega
  | succ n ih =>
      intro k sh d hk hsh hk10 hk11
      rw [List.replicate_succ]
      by_cases hten : k = 10
      · subst hten
        have hn0 : n = 0 := by omega
        subst hn0
        rw [notify_nan_cons _ _ s _ (processTicker_nan_force sh d s hk hsh)]
        rw [List.replicate_zero]
        rfl
      · rw [notify_nan_cons _ _ s _ (processTicker_nan_low sh d s k hk (by omega))]
        rw [ih (k + 1) sh (aset d s (k + 1)) (alookup_aset_self d s (k + 1)) hsh
          (by omega) (by omega)]
        rw [aset_aset]

/-- C2: for a previously-unseen symbol fed only NaN samples, after 9 samples
nothing has been sent, no decided value exists and the invalid counter is 9;
after 11 samples the 11th has forced the decided value to the canonical 0 and
reset the counter to 0. -/
theorem shortable_nan_threshold (sh : List (String × ℚ)) (d : List (String × Nat))
    (s : String) (h1 : alookup d s = none) (h2 : alookup sh s = none) :
    ((notifyShortableShares ⟨sh, d⟩ (List.replicate 9 (nanTicker s))).2 = [] ∧
     alookup (notifyShortableShares ⟨sh, d⟩
        (List.replicate 9 (nanTicker s))).1.shortableSharesDict s = none ∧
     alookup (notifyShortableShares ⟨sh, d⟩
        (List.replicate 9 (nanTicker s))).1.nanCounterDict s = some 9) ∧
    (alookup (notifyShortableShares ⟨sh, d⟩
        (List.replicate 11 (nanTicker s))).1.shortableSharesDict s = some 0 ∧
     alookup (notifyShortableShares ⟨sh, d⟩
        (List.replicate 11 (nanTicker s))).1.nanCounterDict s = some 0) := by
  have e1 := processTicker_nan_first sh d s h1
  have hlook : alookup (aset d s 1) s = some 1 := alookup_aset_self d s 1
  have run9 : notifyShortableShares ⟨sh, d⟩ (List.replicate 9 (nanTicker s)) =
      (⟨sh, aset d s 9⟩, []) := by
    have e9 : List.replicate 9 (nanTicker s) =
        nanTicker s :: List.replicate 8 (nanTicker s) := rfl
    rw [e9, notify_nan_cons _ _ s _ e1,
      notify_nan_run s 8 1 sh (aset d s 1) hlook (by omega), aset_aset]
  have run11 : notifyShortableShares ⟨sh, d⟩ (List.replicate 11 (nanTicker s)) =
      (⟨aset sh s 0, aset d s 0⟩, []) := by
    have e11 : List.replicate 11 (nanTicker s) =
        nanTicker s :: List.replicate 10 (nanTicker s) := rfl
    rw [e11, notify_nan_cons _ _ s _ e1,
      notify_nan_run_force s 10 1 sh (aset d s 1) hlook h2 (by omega) (by omega), aset_aset]
  rw [run9, run11]
  exact ⟨⟨rfl, h2, alookup_aset_self d s 9⟩,
    alookup_aset_self sh s 0, alookup_aset_self d s 0⟩

/-- Witness for C2 at the empty state and symbol "A". -/
theorem shortable_nan_threshold_witness :
    alookup ([] : List (String × Nat)) "A" = none ∧
    alookup ([] : List (String × ℚ)) "A" = none ∧
    alookup (notifyShortableShares (⟨[], []⟩ : ShortState)
        (List.replicate 11 (nanTicker "A"))).1.shortableSharesDict "A" = some 0 :=
  ⟨rfl, rfl, (shortable_nan_threshold [] [] "A" rfl rfl).2.1⟩

/- ===================== C3 ===================== -/

theorem foldl_preserve {β : Type} (P : TrackerState → Prop) (f : TrackerState → β → TrackerState)
    (hf : ∀ st b, P st → P (f st b)) :
    ∀ (l : List β) (st : TrackerState), P st → P (l.foldl f st) := by
  intro l
  induction l with
  | nil => intro st h; simpa using h
  | cons b l ih =>
      intro st h
      rw [List.foldl_cons]
      exact ih _ (hf st b h)

theorem addSymbolStep_preserve (sym : String) (s : TrackerState) (symbol : String)
    (h : (alookup s.tickerDictionary sym).isSome) :
    (alookup (addSymbolStep s symbol).tickerDictionary sym).isSome := by
  unfold addSymbolStep
  by_cases hin : (alookup s.tickerDictionary symbol).isSome
  · simpa [hin] using h
  · simp only [hin, if_false, Bool.false_eq_true, ite_false]
    exact alookup_aset_isSome _ _ _ _ h

theorem addSymbolStep_mem (s : TrackerState) (symbol : String) :
    (alookup (addSymbolStep s symbol).tickerDictionary symbol).isSome := by
  unfold addSymbolStep
  by_cases hin : (alookup s.tickerDictionary symbol).isSome
  · simp [hin]
  · simp only [hin, if_false, Bool.false_eq_true, ite_false]
    simp [alookup_aset_self]

theorem foldl_addSymbolStep_mem (sym : String) : ∀ (l : List String) (s : TrackerState),
    sym ∈ l → (alookup (l.foldl addSymbolStep s).tickerDictionary sym).isSome := by
  intro l
  induction l with
  | nil => intro s h; cases h
  | cons a l ih =>
      intro s h
      rw [List.foldl_cons]
      rcases List.mem_cons.mp h with h1 | h2
      · subst h1
        exact foldl_preserve (fun t => (alookup t.tickerDictionary sym).isSome)
          addSymbolStep (fun t b hp => addSymbolStep_preserve sym t b hp) l _
          (addSymbolStep_mem s sym)
      · exact ih _ h2

theorem create_mono (st : TrackerState) (ibkr : IBKRModel) (sym : String)
    (h : (alookup st.tickerDictionary sym).isSome) :
    (alookup (create st ibkr).tickerDictionary sym).isSome := by
  unfold create
  cases hrc : ibkr.requestClient with
  | none => exact h
  | some positions =>
      by_cases hemp : positions.positions.isEmpty
      · simpa [hemp] using h
      · simp only [hemp, if_false, Bool.false_eq_true, ite_false]
        apply foldl_preserve (fun t => (alookup t.tickerDictionary sym).isSome)
          _ (fun t u hp => alookup_aset_isSome _ _ _ _ hp)
        apply foldl_preserve (fun t => (alookup t.tickerDictionary sym).isSome)
          _ (fun t kv hp => alookup_aset_isSome _ _ _ _ hp)
        exact h

theorem refresh_mono (st : TrackerState) (ibkr : IBKRModel) (il : List Instrument)
    (sym : String) (h : (alookup st.tickerDictionary sym).isSome) :
    (alookup (refreshTickerDictionary st ibkr il).tickerDictionary sym).isSome := by
  unfold refreshTickerDictionary
  cases hrc : ibkr.requestClient with
  | none => exact h
  | some portfolio =>
      by_cases hemp : st.tickerDictionary.isEmpty
      · simp only [hemp, ite_true]
        exact create_mono st ibkr sym h
      · by_cases hp : portfolio.positions.isEmpty
        · simpa [hemp, hp] using h
        · simp only [hemp, hp, if_false, Bool.false_eq_true, ite_false]
          exact foldl_preserve (fun t => (alookup t.tickerDictionary sym).isSome)
            addSymbolStep (fun t b hp2 => addSymbolStep_preserve sym t b hp2) _ st h

/-- C3 (counterexample): with an empty ticker dictionary, a portfolio holding
only XYZ and the manual symbol MAN in instrumentList, refreshTickerDictionary
delegates to create, which ignores instrumentList: afterwards MAN is not
tracked even though XYZ is. -/
theorem refresh_missing_manual_symbol :
    instrMAN.symbol = "MAN" ∧
    alookup (refreshTickerDictionary emptyTracker ibkrXYZ
        [instrMAN]).tickerDictionary "MAN" = none ∧
    (alookup (refreshTickerDictionary emptyTracker ibkrXYZ
        [instrMAN]).tickerDictionary "XYZ").isSome = true := by
  exact ⟨rfl, rfl, rfl⟩

/-- C3 (amended): refreshTickerDictionary never removes a tracked symbol, and
whenever the ticker dictionary is already non-empty and the fetched portfolio
is non-empty, after the call the dictionary contains every portfolio symbol,
every non-empty derived underlying, and every instrumentList symbol.  (When
the ticker dictionary is empty the call delegates to create, which adds
portfolio symbols and underlyings but not instrumentList symbols; when the
portfolio is empty it adds nothing.) -/
theorem refresh_ticker_dictionary_growth (st : TrackerState) (ibkr : IBKRModel)
    (il : List Instrument) :
    (∀ sym, (alookup st.tickerDictionary sym).isSome →
      (alookup (refreshTickerDictionary st ibkr il).tickerDictionary sym).isSome) ∧
    (∀ portfolio, ibkr.requestClient = some portfolio →
      st.tickerDictionary.isEmpty = false → portfolio.positions.isEmpty = false →
      ∀ sym, sym ∈ portfolio.positions.map (fun kv => kv.1)
          ++ getUnderlyings (portfolio.positions.map (fun kv => kv.2))
          ++ il.map (fun i => i.symbol) →
        (alookup (refreshTickerDictionary st ibkr il).tickerDictionary sym).isSome) := by
  constructor
  · intro sym h
    exact refresh_mono st ibkr il sym h
  · intro portfolio hrc hne hpne sym hmem
    unfold refreshTickerDictionary
    rw [hrc]
    simp only [hne, hpne, Bool.false_eq_true, if_false, ite_false]
    exact foldl_addSymbolStep_mem sym _ st hmem

/-- Witness for C3's amended theorem: a tracker already holding OLD, a
portfolio holding XYZ, and manual symbol MAN; OLD survives and MAN is added. -/
theorem refresh_ticker_dictionary_growth_witness :
    (alookup trackerOLD.tickerDictionary "OLD").isSome = true ∧
    (alookup (refreshTickerDictionary trackerOLD ibkrXYZ
        [instrMAN]).tickerDictionary "OLD").isSome = true ∧
    (ibkrXYZ.requestClient = some portfolioXYZ ∧
     trackerOLD.tickerDictionary.isEmpty = false ∧
     portfolioXYZ.positions.isEmpty = false ∧
     "MAN" ∈ portfolioXYZ.positions.map (fun kv => kv.1)
        ++ getUnderlyings (portfolioXYZ.positions.map (fun kv => kv.2))
        ++ [instrMAN].map (fun i => i.symbol)) ∧
    (alookup (refreshTickerDictionary trackerOLD ibkrXYZ
        [instrMAN]).tickerDictionary "MAN").isSome = true := by
  refine ⟨by decide,
    (refresh_ticker_dictionary_growth trackerOLD ibkrXYZ [instrMAN]).1 "OLD" (by decide),
    ⟨rfl, by decide, by decide, by decide⟩,
    (refresh_ticker_dictionary_growth trackerOLD ibkrXYZ [instrMAN]).2 portfolioXYZ rfl
      (by decide) (by decide) "MAN" (by decide)⟩

/- ===================== C7 ===================== -/

theorem foldl_bestRow_not_mem (rt : Instrument → Option MarketData) (sym : String) :
    ∀ (l : List (String × Instrument)) (pp : List (String × PriceRow)),
    (∀ kv ∈ l, kv.2.symbol ≠ sym) →
    alookup (l.foldl (fun pp kv => aset pp kv.2.symbol (bestRow kv.2 (rt kv.2))) pp) sym
      = alookup pp sym := by
  intro l
  induction l with
  | nil => intro pp _; rfl
  | cons kv l ih =>
      intro pp h
      rw [List.foldl_cons,
        ih _ (fun x hx => h x (List.mem_cons_of_mem kv hx)),
        alookup_aset_ne _ _ _ _ (Ne.symm (h kv (List.mem_cons_self kv l)))]

theorem foldl_bestRow_mem (rt : Instrument → Option MarketData) (k : String)
    (instr : Instrument) :
    ∀ (l : List (String × Instrument)) (pp : List (String × PriceRow)),
    (k, instr) ∈ l → (l.map (fun kv => kv.2.symbol)).Nodup →
    alookup (l.foldl (fun pp kv => aset pp kv.2.symbol (bestRow kv.2 (rt kv.2))) pp)
        instr.symbol = some (bestRow instr (rt instr)) := by
  intro l
  induction l with
  | nil => intro pp h _; cases h
  | cons kv l ih =>
      intro pp hmem hnd
      rw [List.map_cons, List.nodup_cons] at hnd
      rw [List.foldl_cons]
      rcases List.mem_cons.mp hmem with h1 | h2
      · have hkv : kv = (k, instr) := h1.symm
        subst hkv
        have hne : ∀ x ∈ l, x.2.symbol ≠ instr.symbol := by
          intro x hx heq
          exact hnd.1 (heq ▸ List.mem_map_of_mem (fun kv => kv.2.symbol) hx)
        rw [foldl_bestRow_not_mem rt instr.symbol l _ hne, alookup_aset_self]
      · exact ih _ h2 hnd.2

/-- C7 (counterexample): a futures instrument — a derivative — with available
market data gets the last-trade price with type "Last" (here 7), not the mark
price (here 5): the "Mark" selection applies only to instrument kind "OPT". -/
theorem updateMarkPrices_fut_uses_last :
    futInstr.instrumentType = "FUT" ∧
    rtSample futInstr = some mdSample ∧
    mdSample.markPrice = FVal.num 5 ∧
    alookup (updateMarkPrices trackerFut rtSample false).portfolioPrices "FUT1" =
      some ⟨7, "Last", "2026-01-01 10:00:00", 6⟩ := by
  exact ⟨rfl, rfl, rfl, rfl⟩

/-- C7 (amended): for every tracked instrument (under the natural invariant
that tracked instrument symbols are pairwise distinct), the snapshot row
built by updateMarkPrices is bestRow of the instrument and its best market
data, which uses the mark price with type "Mark" exactly when the instrument
kind is "OPT", the last-trade price with type "Last" for every other kind
(futures included), and the (0, "N/A") marker when no data provider has
supplied data. -/
theorem updateMarkPrices_row_selection (st : TrackerState)
    (rt : Instrument → Option MarketData) (close : Bool) (k : String)
    (instr : Instrument) (hmem : (k, instr) ∈ st.instrumentDictionary)
    (hnd : (st.instrumentDictionary.map (fun kv => kv.2.symbol)).Nodup) :
    alookup (updateMarkPrices st rt close).portfolioPrices instr.symbol =
      some (bestRow instr (rt instr)) ∧
    (rt instr = none → bestRow instr (rt instr) = ⟨0, "N/A", "N/A", 0⟩) ∧
    (∀ m, rt instr = some m → instr.instrumentType = "OPT" →
      bestRow instr (rt instr) =
        ⟨fvalToQ m.markPrice, "Mark", m.timestampStr, fvalToQ m.closePrice⟩) ∧
    (∀ m, rt instr = some m → instr.instrumentType ≠ "OPT" →
      bestRow instr (rt instr) =
        ⟨fvalToQ m.last, "Last", m.timestampStr, fvalToQ m.closePrice⟩) := by
  refine ⟨?_, ?_, ?_, ?_⟩
  · unfold updateMarkPrices
    exact foldl_bestRow_mem rt k instr st.instrumentDictionary st.portfolioPrices hmem hnd
  · intro h
    simp [bestRow, h]
  · intro m hm hty
    simp [bestRow, hm, hty]
  · intro m hm hty
    simp [bestRow, hm, hty]

/-- Witness for C7's amended theorem at a concrete option instrument. -/
theorem updateMarkPrices_row_selection_witness :
    (("OPT1", optInstr) ∈ trackerOpt.instrumentDictionary ∧
     (trackerOpt.instrumentDictionary.map (fun kv => kv.2.symbol)).Nodup) ∧
    alookup (updateMarkPrices trackerOpt rtSample false).portfolioPrices optInstr.symbol =
      some (bestRow optInstr (rtSample optInstr)) :=
  ⟨⟨by decide, by decide⟩,
   (updateMarkPrices_row_selection trackerOpt rtSample false "OPT1" optInstr
      (by decide) (by decide)).1⟩

end TradingMonitor
